import Mathlib

/-!
Shallow embedding of the `ema-microserver3` repository
(`src/kalkulacka.py`, `src/app.py`): a time-value-of-money calculator
exposed through a FastAPI endpoint.

Python floats are modelled by real numbers.  Python's arithmetic
exceptions are modelled by `Option`: a float division with zero divisor
and `0.0 ** n` with negative integer `n` raise `ZeroDivisionError`, so
every Python `/` is translated to `pydiv` and every `**` with an
integer exponent to `zpowP`, each returning `none` exactly when Python
raises.  Python's `round` (round-half-to-even) is `pyround`.
The fractional power `(1 + r) ** (1/12)` in `eff_monthly_rate` is
modelled by `Real.rpow`.
-/

namespace Kalkulacka

open Classical

/-- `class InvestmentType(str, Enum)` from kalkulacka.py. -/
inductive InvestmentType where
  | one_time
  | monthly
  | combined
deriving DecidableEq

/-- `.value` of the `InvestmentType` enum member (its string payload). -/
def InvestmentType.value : InvestmentType → String
  | .one_time => "one_time"
  | .monthly => "monthly"
  | .combined => "combined"

/-- `@dataclass LumpSumInput` from kalkulacka.py. -/
structure LumpSumInput where
  target_amount : ℝ
  years : ℝ
  annual_rate_accum : ℝ
  investment_type : InvestmentType
  one_time_investment : ℝ := 0

/-- `@dataclass RentaInput` from kalkulacka.py. -/
structure RentaInput where
  monthly_rent : ℝ
  years_rent : ℝ
  annual_rate_rent : ℝ
  years_saving : ℝ
  annual_rate_accum : ℝ
  investment_type : InvestmentType
  one_time_investment : ℝ := 0

/-- Python `round` on a real: round half to even (banker's rounding),
as used in `int(round(years * 12))`. -/
noncomputable def pyround (x : ℝ) : ℤ :=
  if Int.fract x = 1 / 2 then (if Even ⌊x⌋ then ⌊x⌋ else ⌊x⌋ + 1) else round x

/-- Python float division: raises `ZeroDivisionError` when the divisor
is zero, modelled as `none`. -/
noncomputable def pydiv (a b : ℝ) : Option ℝ :=
  if b = 0 then none else some (a / b)

/-- Python `x ** n` for float `x` and int `n`: raises
`ZeroDivisionError` when `x = 0` and `n < 0`, modelled as `none`;
otherwise it is the integer power. -/
noncomputable def zpowP (x : ℝ) (n : ℤ) : Option ℝ :=
  if x = 0 ∧ n < 0 then none else some (x ^ n)

/-- `eff_monthly_rate`: `(1.0 + annual_rate) ** (1.0 / 12.0) - 1.0`. -/
noncomputable def eff_monthly_rate (annual_rate : ℝ) : ℝ :=
  (1 + annual_rate) ^ ((1 : ℝ) / 12) - 1

/-- `fv_lump_sum`: `pv * (1.0 + i) ** n_months`. -/
noncomputable def fv_lump_sum (pv i : ℝ) (n_months : ℤ) : Option ℝ := do
  let p ← zpowP (1 + i) n_months
  pure (pv * p)

/-- `pv_from_fv`: `fv / ((1.0 + i) ** n_months)`. -/
noncomputable def pv_from_fv (fv i : ℝ) (n_months : ℤ) : Option ℝ := do
  let p ← zpowP (1 + i) n_months
  pydiv fv p

/-- `fv_annuity`: `monthly_payment * n_months` if `i == 0`, else
`monthly_payment * ((1.0 + i) ** n_months - 1.0) / i`. -/
noncomputable def fv_annuity (monthly_payment i : ℝ) (n_months : ℤ) : Option ℝ :=
  if i = 0 then pure (monthly_payment * n_months)
  else do
    let p ← zpowP (1 + i) n_months
    pydiv (monthly_payment * (p - 1)) i

/-- `annuity_from_fv`: `fv / n_months` if `i == 0`, else
`fv * i / ((1.0 + i) ** n_months - 1.0)`. -/
noncomputable def annuity_from_fv (fv i : ℝ) (n_months : ℤ) : Option ℝ :=
  if i = 0 then pydiv fv n_months
  else do
    let p ← zpowP (1 + i) n_months
    pydiv (fv * i) (p - 1)

/-- `pv_renta_required`: `i2 = eff_monthly_rate(annual_rate_rent)`,
`n = int(round(years_rent * 12))`; `monthly_rent * n` if `i2 == 0`,
else `monthly_rent * (1.0 - (1.0 + i2) ** (-n)) / i2`. -/
noncomputable def pv_renta_required (monthly_rent annual_rate_rent years_rent : ℝ) :
    Option ℝ :=
  let i2 := eff_monthly_rate annual_rate_rent
  let n := pyround (years_rent * 12)
  if i2 = 0 then pure (monthly_rent * n)
  else do
    let p ← zpowP (1 + i2) (-n)
    pydiv (monthly_rent * (1 - p)) i2

/-- The result dict of `compute_lump_sum`: the five base keys are always
present, the branch-specific keys are `Option`s (absent = `none`). -/
structure LumpSumResult where
  goal_type : String
  target_amount : ℝ
  years : ℝ
  annual_rate_accum : ℝ
  investment_type : String
  required_wealth_today : Option ℝ := none
  monthly_investment : Option ℝ := none
  one_time_investment : Option ℝ := none
  fv_one_time_investment : Option ℝ := none
  target_amount_remaining_for_monthly : Option ℝ := none

/-- The result dict of `compute_renta`: the eight base keys are always
present, the branch-specific keys are `Option`s (absent = `none`). -/
structure RentaResult where
  goal_type : String
  monthly_rent : ℝ
  years_rent : ℝ
  annual_rate_rent : ℝ
  years_saving : ℝ
  annual_rate_accum : ℝ
  investment_type : String
  required_wealth_at_rent_start : ℝ
  required_wealth_today : Option ℝ := none
  monthly_investment : Option ℝ := none
  one_time_investment : Option ℝ := none
  fv_one_time_investment : Option ℝ := none
  target_amount_remaining_for_monthly : Option ℝ := none

/-- `compute_lump_sum` from kalkulacka.py, line for line; `none` models
an uncaught `ZeroDivisionError`. -/
noncomputable def compute_lump_sum (input_data : LumpSumInput) : Option LumpSumResult :=
  let i := eff_monthly_rate input_data.annual_rate_accum
  let n := pyround (input_data.years * 12)
  let result : LumpSumResult :=
    { goal_type := "lump_sum"
      target_amount := input_data.target_amount
      years := input_data.years
      annual_rate_accum := input_data.annual_rate_accum
      investment_type := input_data.investment_type.value }
  if input_data.investment_type = .one_time then do
    let pv_needed ← pv_from_fv input_data.target_amount i n
    pure { result with required_wealth_today := some pv_needed }
  else if input_data.investment_type = .monthly then do
    let monthly ← annuity_from_fv input_data.target_amount i n
    pure { result with monthly_investment := some monthly }
  else if input_data.investment_type = .combined then do
    let fv_one_time ← fv_lump_sum input_data.one_time_investment i n
    let remaining := input_data.target_amount - fv_one_time
    let remaining := if remaining < 0 then 0 else remaining
    let monthly ← annuity_from_fv remaining i n
    pure { result with
           one_time_investment := some input_data.one_time_investment
           monthly_investment := some monthly
           fv_one_time_investment := some fv_one_time
           target_amount_remaining_for_monthly := some remaining }
  else
    pure result

/-- `compute_renta` from kalkulacka.py, line for line; `none` models an
uncaught `ZeroDivisionError`. -/
noncomputable def compute_renta (input_data : RentaInput) : Option RentaResult := do
  let required_wealth_at_rent_start ← pv_renta_required
    input_data.monthly_rent input_data.annual_rate_rent input_data.years_rent
  let i1 := eff_monthly_rate input_data.annual_rate_accum
  let m := pyround (input_data.years_saving * 12)
  let result : RentaResult :=
    { goal_type := "renta"
      monthly_rent := input_data.monthly_rent
      years_rent := input_data.years_rent
      annual_rate_rent := input_data.annual_rate_rent
      years_saving := input_data.years_saving
      annual_rate_accum := input_data.annual_rate_accum
      investment_type := input_data.investment_type.value
      required_wealth_at_rent_start := required_wealth_at_rent_start }
  if input_data.investment_type = .one_time then do
    let pv_today ← pv_from_fv required_wealth_at_rent_start i1 m
    pure { result with required_wealth_today := some pv_today }
  else if input_data.investment_type = .monthly then do
    let monthly ← annuity_from_fv required_wealth_at_rent_start i1 m
    pure { result with monthly_investment := some monthly }
  else if input_data.investment_type = .combined then do
    let fv_one_time ← fv_lump_sum input_data.one_time_investment i1 m
    let remaining := required_wealth_at_rent_start - fv_one_time
    let remaining := if remaining < 0 then 0 else remaining
    let monthly ← annuity_from_fv remaining i1 m
    pure { result with
           one_time_investment := some input_data.one_time_investment
           monthly_investment := some monthly
           fv_one_time_investment := some fv_one_time
           target_amount_remaining_for_monthly := some remaining }
  else
    pure result

/-!  Embedding of `src/app.py`: the FastAPI `POST /calc` endpoint. -/

/-- The raw JSON body of a `POST /calc`, before pydantic validation:
`goal_type` and `investment_type` arrive as plain strings (their
`Literal` types are enforced by the validation step), the numeric
fields are `Optional[float]`.  `one_time_investment` has pydantic
default `0.0`, hence `some 0` when absent from the body. -/
structure RawCalcRequest where
  goal_type : String
  investment_type : String
  one_time_investment : Option ℝ := some 0
  target_amount : Option ℝ := none
  years : Option ℝ := none
  annual_rate_accum : Option ℝ := none
  monthly_rent : Option ℝ := none
  years_rent : Option ℝ := none
  annual_rate_rent : Option ℝ := none
  years_saving : Option ℝ := none

/-- `getattr(req, k)` for the conditionally required numeric fields. -/
def RawCalcRequest.field (req : RawCalcRequest) : String → Option ℝ
  | "target_amount" => req.target_amount
  | "years" => req.years
  | "annual_rate_accum" => req.annual_rate_accum
  | "monthly_rent" => req.monthly_rent
  | "years_rent" => req.years_rent
  | "annual_rate_rent" => req.annual_rate_rent
  | "years_saving" => req.years_saving
  | _ => none

/-- The required-field list for `goal_type == "lump_sum"` (app.py line 50). -/
def lumpSumRequired : List String := ["target_amount", "years", "annual_rate_accum"]

/-- The required-field list for `goal_type == "renta"` (app.py line 64). -/
def rentaRequired : List String :=
  ["monthly_rent", "years_rent", "annual_rate_rent", "years_saving", "annual_rate_accum"]

/-- `[k for k in ks if getattr(req, k) is None]`. -/
def missingFields (req : RawCalcRequest) (ks : List String) : List String :=
  ks.filter (fun k => (req.field k).isNone)

/-- The ASCII apostrophe, as printed by Python around each list element. -/
def pyQuote : String := String.singleton (Char.ofNat 39)

/-- Python `str` of a list of strings, as interpolated by the f-string
in the 400 detail: every element single-quoted, comma-separated,
bracketed. -/
def pyListRepr (l : List String) : String :=
  "[" ++ String.intercalate ", " (l.map (fun s => pyQuote ++ s ++ pyQuote)) ++ "]"

/-- `InvestmentType(s)`: enum lookup by value; `none` models the
`ValueError` Python raises for an unknown value. -/
def investmentTypeOfString (s : String) : Option InvestmentType :=
  if s = "one_time" then some .one_time
  else if s = "monthly" then some .monthly
  else if s = "combined" then some .combined
  else none

/-- An HTTP response of the endpoint: a 200 with one of the two result
records, or an error status with a detail string. -/
inductive CalcResponse where
  | okLump (result : LumpSumResult)
  | okRenta (result : RentaResult)
  | err (status : ℕ) (detail : String)

/-- The HTTP status code of a response. -/
def CalcResponse.status : CalcResponse → ℕ
  | .okLump _ => 200
  | .okRenta _ => 200
  | .err s _ => s

/-- The body of the `calc` handler in app.py (lines 45-85), reached
after pydantic accepted the request.  A `ValueError` from the
`InvestmentType` constructor and a `ZeroDivisionError` from the
calculators are caught by the generic `except Exception` and surfaced
as a 500.  The required numeric fields are known to be present when the
inputs are built (the `missing` check just returned none), so `getD 0`
reads the value inside `some`; for `one_time_investment` it is the
Python `req.one_time_investment or 0.0`. -/
noncomputable def calcHandler (req : RawCalcRequest) : CalcResponse :=
  match investmentTypeOfString req.investment_type with
  | none => .err 500 (pyQuote ++ req.investment_type ++ pyQuote ++ " is not a valid InvestmentType")
  | some inv_type =>
    if req.goal_type = "lump_sum" then
      let missing := missingFields req lumpSumRequired
      if missing ≠ [] then
        .err 400 ("Missing fields for lump_sum: " ++ pyListRepr missing)
      else
        match compute_lump_sum
          { target_amount := req.target_amount.getD 0
            years := req.years.getD 0
            annual_rate_accum := req.annual_rate_accum.getD 0
            investment_type := inv_type
            one_time_investment := req.one_time_investment.getD 0 } with
        | some r => .okLump r
        | none => .err 500 "float division by zero"
    else if req.goal_type = "renta" then
      let missing := missingFields req rentaRequired
      if missing ≠ [] then
        .err 400 ("Missing fields for renta: " ++ pyListRepr missing)
      else
        match compute_renta
          { monthly_rent := req.monthly_rent.getD 0
            years_rent := req.years_rent.getD 0
            annual_rate_rent := req.annual_rate_rent.getD 0
            years_saving := req.years_saving.getD 0
            annual_rate_accum := req.annual_rate_accum.getD 0
            investment_type := inv_type
            one_time_investment := req.one_time_investment.getD 0 } with
        | some r => .okRenta r
        | none => .err 500 "float division by zero"
    else
      .err 400 "Unknown goal_type"

/-- `POST /calc` end to end.  FastAPI first validates the body against
the pydantic model `CalcRequest`: `goal_type` and `investment_type` are
`Literal` types, so a value outside the allowed literals is rejected
with HTTP 422 (FastAPI's request-validation response) before the
handler ever runs; only then does `calc` execute. -/
noncomputable def postCalc (req : RawCalcRequest) : CalcResponse :=
  if req.goal_type ∈ ["lump_sum", "renta"] ∧
     req.investment_type ∈ ["one_time", "monthly", "combined"] then
    calcHandler req
  else
    .err 422 "request validation error"

/-! ### Lemmas about the embedding primitives -/

theorem pydiv_of_ne (a : ℝ) {b : ℝ} (h : b ≠ 0) : pydiv a b = some (a / b) :=
  if_neg h

theorem pydiv_eq_some {a b c : ℝ} (h : pydiv a b = some c) : b ≠ 0 ∧ a / b = c := by
  by_cases hb : b = 0
  · simp [pydiv, hb] at h
  · exact ⟨hb, by simpa [pydiv, hb] using h⟩

theorem zpowP_of_ne {x : ℝ} (h : x ≠ 0) (n : ℤ) : zpowP x n = some (x ^ n) := by
  simp [zpowP, h]

theorem zpowP_of_nonneg (x : ℝ) {n : ℤ} (h : 0 ≤ n) : zpowP x n = some (x ^ n) := by
  unfold zpowP
  rw [if_neg]
  rintro ⟨-, h2⟩
  omega

theorem zpowP_eq_some {x : ℝ} {n : ℤ} {c : ℝ} (h : zpowP x n = some c) : x ^ n = c := by
  by_cases hc : x = 0 ∧ n < 0
  · simp [zpowP, hc] at h
  · simpa [zpowP, hc] using h

/-- If `m ≤ x < m + 1/2` then Python rounding gives `m` (no tie). -/
theorem pyround_int_of_bounds {x : ℝ} {m : ℤ} (h1 : (m : ℝ) ≤ x) (h2 : x < m + 1 / 2) :
    pyround x = m := by
  have hfl : ⌊x⌋ = m := Int.floor_eq_iff.2 ⟨h1, by linarith⟩
  have hfr : Int.fract x = x - (m : ℝ) := by rw [← Int.self_sub_floor x, hfl]
  have hne : Int.fract x ≠ 1 / 2 := by rw [hfr]; intro hh; linarith
  have hr : round x = m := by
    rw [round_eq]
    exact Int.floor_eq_iff.2 ⟨by linarith, by linarith⟩
  unfold pyround
  rw [if_neg hne, hr]

theorem floor_le_pyround (x : ℝ) : ⌊x⌋ ≤ pyround x := by
  unfold pyround
  split
  · split
    · exact le_refl _
    · omega
  · rw [round_eq]
    exact Int.floor_mono (by linarith)

theorem pyround_le_floor_add_one (x : ℝ) : pyround x ≤ ⌊x⌋ + 1 := by
  unfold pyround
  split
  · split
    · omega
    · omega
  · rw [round_eq]
    have : ⌊x + 1 / 2⌋ ≤ ⌊x + 1⌋ := Int.floor_mono (by linarith)
    simpa [Int.floor_add_int] using this

/-- Python rounding is monotone. -/
theorem pyround_mono {x y : ℝ} (h : x ≤ y) : pyround x ≤ pyround y := by
  rcases le_or_lt (⌊x⌋ + 1) ⌊y⌋ with hfy | hfy
  · exact le_trans (pyround_le_floor_add_one x) (le_trans hfy (floor_le_pyround y))
  · have hfxy : ⌊x⌋ = ⌊y⌋ := le_antisymm (Int.floor_mono h) (by omega)
    have hx : (⌊x⌋ : ℝ) + Int.fract x = x := Int.floor_add_fract x
    have hy : (⌊y⌋ : ℝ) + Int.fract y = y := Int.floor_add_fract y
    have hfr : Int.fract x ≤ Int.fract y := by
      rw [← Int.self_sub_floor x, ← Int.self_sub_floor y, hfxy]
      linarith
    by_cases hx2 : Int.fract x = 1 / 2
    · by_cases hy2 : Int.fract y = 1 / 2
      · have hxy : x = y := by
          rw [← hx, ← hy, hfxy, hx2, hy2]
        rw [hxy]
      · have hlt : 1 / 2 < Int.fract y := lt_of_le_of_ne (hx2 ▸ hfr) (Ne.symm hy2)
        have hfy1 : Int.fract y < 1 := Int.fract_lt_one y
        have hry : round y = ⌊y⌋ + 1 := by
          rw [round_eq]
          refine Int.floor_eq_iff.2 ⟨?_, ?_⟩
          · push_cast; linarith
          · push_cast; linarith
        have hpy : pyround y = ⌊y⌋ + 1 := by
          unfold pyround
          rw [if_neg hy2, hry]
        rw [hpy, ← hfxy]
        exact pyround_le_floor_add_one x
    · have hprx : pyround x = round x := by unfold pyround; rw [if_neg hx2]
      by_cases hy2 : Int.fract y = 1 / 2
      · have hlt : Int.fract x < 1 / 2 := lt_of_le_of_ne (hy2 ▸ hfr) hx2
        have hfx0 : 0 ≤ Int.fract x := Int.fract_nonneg x
        have hrx : round x = ⌊x⌋ := by
          rw [round_eq]
          refine Int.floor_eq_iff.2 ⟨?_, ?_⟩
          · linarith
          · linarith
        rw [hprx, hrx, hfxy]
        exact floor_le_pyround y
      · have hpry : pyround y = round y := by unfold pyround; rw [if_neg hy2]
        rw [hprx, hpry, round_eq, round_eq]
        exact Int.floor_mono (by linarith)

/-- The effective monthly rate of a zero annual rate is zero. -/
theorem eff_monthly_rate_zero : eff_monthly_rate 0 = 0 := by
  unfold eff_monthly_rate
  norm_num

/-- For an annual rate above total loss, the monthly growth factor is positive. -/
theorem one_add_eff_pos {r : ℝ} (h : -1 < r) : 0 < 1 + eff_monthly_rate r := by
  unfold eff_monthly_rate
  have := Real.rpow_pos_of_pos (show (0 : ℝ) < 1 + r by linarith) ((1 : ℝ) / 12)
  linarith

/-- The monthly growth factor `1 + i` is nonnegative for every annual
rate: `Real.rpow` of a twelfth is nonnegative at every base. -/
theorem one_add_eff_nonneg (r : ℝ) : 0 ≤ 1 + eff_monthly_rate r := by
  unfold eff_monthly_rate
  have key : 0 ≤ (1 + r) ^ ((1 : ℝ) / 12) := by
    rcases lt_trichotomy (1 + r) 0 with hb | hb | hb
    · rw [Real.rpow_def_of_neg hb]
      have hc : 0 < Real.cos (1 / 12 * Real.pi) := by
        apply Real.cos_pos_of_mem_Ioo
        constructor
        · nlinarith [Real.pi_pos]
        · nlinarith [Real.pi_pos]
      positivity
    · rw [hb, Real.zero_rpow (by norm_num)]
    · exact le_of_lt (Real.rpow_pos_of_pos hb _)
  linarith

/-- A positive base other than `1` raised to a positive integer power is not `1`. -/
theorem zpow_ne_one_of_ne {x : ℝ} (hx : 0 < x) (hx1 : x ≠ 1) {n : ℤ} (hn : 1 ≤ n) :
    x ^ n ≠ 1 := by
  lift n to ℕ using (by omega : (0 : ℤ) ≤ n)
  rw [zpow_natCast]
  have hn0 : n ≠ 0 := by exact_mod_cast (by omega : ¬(n : ℤ) = 0)
  rcases lt_or_gt_of_ne hx1 with hlt | hgt
  · exact ne_of_lt (pow_lt_one₀ (le_of_lt hx) hlt hn0)
  · exact ne_of_gt (one_lt_pow₀ hgt hn0)

/-! ### Branch shapes of the two calculators -/

theorem compute_lump_sum_of_one_time (inp : LumpSumInput)
    (htype : inp.investment_type = .one_time) :
    compute_lump_sum inp =
      (pv_from_fv inp.target_amount (eff_monthly_rate inp.annual_rate_accum)
          (pyround (inp.years * 12))).bind fun pv_needed =>
        some { goal_type := "lump_sum"
               target_amount := inp.target_amount
               years := inp.years
               annual_rate_accum := inp.annual_rate_accum
               investment_type := "one_time"
               required_wealth_today := some pv_needed } := by
  simp [compute_lump_sum, htype, InvestmentType.value]

theorem compute_lump_sum_of_monthly (inp : LumpSumInput)
    (htype : inp.investment_type = .monthly) :
    compute_lump_sum inp =
      (annuity_from_fv inp.target_amount (eff_monthly_rate inp.annual_rate_accum)
          (pyround (inp.years * 12))).bind fun monthly =>
        some { goal_type := "lump_sum"
               target_amount := inp.target_amount
               years := inp.years
               annual_rate_accum := inp.annual_rate_accum
               investment_type := "monthly"
               monthly_investment := some monthly } := by
  simp [compute_lump_sum, htype, InvestmentType.value]

theorem compute_lump_sum_of_combined (inp : LumpSumInput)
    (htype : inp.investment_type = .combined) :
    compute_lump_sum inp =
      (fv_lump_sum inp.one_time_investment (eff_monthly_rate inp.annual_rate_accum)
          (pyround (inp.years * 12))).bind fun fv_one_time =>
        (annuity_from_fv
            (if inp.target_amount - fv_one_time < 0 then 0
             else inp.target_amount - fv_one_time)
            (eff_monthly_rate inp.annual_rate_accum) (pyround (inp.years * 12))).bind
          fun monthly =>
            some { goal_type := "lump_sum"
                   target_amount := inp.target_amount
                   years := inp.years
                   annual_rate_accum := inp.annual_rate_accum
                   investment_type := "combined"
                   one_time_investment := some inp.one_time_investment
                   monthly_investment := some monthly
                   fv_one_time_investment := some fv_one_time
                   target_amount_remaining_for_monthly :=
                     some (if inp.target_amount - fv_one_time < 0 then 0
                           else inp.target_amount - fv_one_time) } := by
  simp [compute_lump_sum, htype, InvestmentType.value]

theorem compute_renta_of_one_time (inp : RentaInput)
    (htype : inp.investment_type = .one_time) :
    compute_renta inp =
      (pv_renta_required inp.monthly_rent inp.annual_rate_rent inp.years_rent).bind
        fun required_wealth_at_rent_start =>
          (pv_from_fv required_wealth_at_rent_start
              (eff_monthly_rate inp.annual_rate_accum)
              (pyround (inp.years_saving * 12))).bind fun pv_today =>
            some { goal_type := "renta"
                   monthly_rent := inp.monthly_rent
                   years_rent := inp.years_rent
                   annual_rate_rent := inp.annual_rate_rent
                   years_saving := inp.years_saving
                   annual_rate_accum := inp.annual_rate_accum
                   investment_type := "one_time"
                   required_wealth_at_rent_start := required_wealth_at_rent_start
                   required_wealth_today := some pv_today } := by
  simp [compute_renta, htype, InvestmentType.value]

theorem compute_renta_of_monthly (inp : RentaInput)
    (htype : inp.investment_type = .monthly) :
    compute_renta inp =
      (pv_renta_required inp.monthly_rent inp.annual_rate_rent inp.years_rent).bind
        fun required_wealth_at_rent_start =>
          (annuity_from_fv required_wealth_at_rent_start
              (eff_monthly_rate inp.annual_rate_accum)
              (pyround (inp.years_saving * 12))).bind fun monthly =>
            some { goal_type := "renta"
                   monthly_rent := inp.monthly_rent
                   years_rent := inp.years_rent
                   annual_rate_rent := inp.annual_rate_rent
                   years_saving := inp.years_saving
                   annual_rate_accum := inp.annual_rate_accum
                   investment_type := "monthly"
                   required_wealth_at_rent_start := required_wealth_at_rent_start
                   monthly_investment := some monthly } := by
  simp [compute_renta, htype, InvestmentType.value]

theorem compute_renta_of_combined (inp : RentaInput)
    (htype : inp.investment_type = .combined) :
    compute_renta inp =
      (pv_renta_required inp.monthly_rent inp.annual_rate_rent inp.years_rent).bind
        fun required_wealth_at_rent_start =>
          (fv_lump_sum inp.one_time_investment (eff_monthly_rate inp.annual_rate_accum)
              (pyround (inp.years_saving * 12))).bind fun fv_one_time =>
            (annuity_from_fv
                (if required_wealth_at_rent_start - fv_one_time < 0 then 0
                 else required_wealth_at_rent_start - fv_one_time)
                (eff_monthly_rate inp.annual_rate_accum)
                (pyround (inp.years_saving * 12))).bind fun monthly =>
              some { goal_type := "renta"
                     monthly_rent := inp.monthly_rent
                     years_rent := inp.years_rent
                     annual_rate_rent := inp.annual_rate_rent
                     years_saving := inp.years_saving
                     annual_rate_accum := inp.annual_rate_accum
                     investment_type := "combined"
                     required_wealth_at_rent_start := required_wealth_at_rent_start
                     one_time_investment := some inp.one_time_investment
                     monthly_investment := some monthly
                     fv_one_time_investment := some fv_one_time
                     target_amount_remaining_for_monthly :=
                       some (if required_wealth_at_rent_start - fv_one_time < 0 then 0
                             else required_wealth_at_rent_start - fv_one_time) } := by
  simp [compute_renta, htype, InvestmentType.value]

/-! ### C1: the MONTHLY branch computes the annuity payment formula -/

/-- C1: For every `LumpSumInput` with `investment_type = MONTHLY`,
`compute_lump_sum` returns a result whose `monthly_investment` equals
`target_amount * i / ((1+i)^n - 1)` when `i ≠ 0` and `target_amount / n`
when `i = 0`, where `i = (1 + annual_rate_accum)^(1/12) - 1`
(`eff_monthly_rate`) and `n = round(years * 12)` coerced to an
integer (`pyround`). -/
theorem C1_monthly_investment_formula (inp : LumpSumInput) (r : LumpSumResult)
    (htype : inp.investment_type = .monthly)
    (hres : compute_lump_sum inp = some r) :
    (eff_monthly_rate inp.annual_rate_accum = 0 →
      r.monthly_investment =
        some (inp.target_amount / ((pyround (inp.years * 12) : ℤ) : ℝ))) ∧
    (eff_monthly_rate inp.annual_rate_accum ≠ 0 →
      r.monthly_investment =
        some (inp.target_amount * eff_monthly_rate inp.annual_rate_accum /
          ((1 + eff_monthly_rate inp.annual_rate_accum) ^ pyround (inp.years * 12) - 1))) := by
  rw [compute_lump_sum_of_monthly inp htype] at hres
  set i := eff_monthly_rate inp.annual_rate_accum with hidef
  set n := pyround (inp.years * 12) with hndef
  unfold annuity_from_fv at hres
  by_cases hi : i = 0
  · rw [if_pos hi] at hres
    refine ⟨fun _ => ?_, fun hi2 => absurd hi hi2⟩
    rcases Option.bind_eq_some.1 hres with ⟨mv, hmv, hr⟩
    obtain ⟨-, hval⟩ := pydiv_eq_some hmv
    cases Option.some.inj hr
    simpa using hval.symm
  · rw [if_neg hi] at hres
    refine ⟨fun hi2 => absurd hi2 hi, fun _ => ?_⟩
    rcases Option.bind_eq_some.1 hres with ⟨mv, hmv, hr⟩
    rcases Option.bind_eq_some.1 hmv with ⟨p, hp, hdiv⟩
    have hpval : (1 + i) ^ n = p := zpowP_eq_some hp
    obtain ⟨-, hval⟩ := pydiv_eq_some hdiv
    cases Option.some.inj hr
    rw [hpval]
    simpa using hval.symm

/-- Witness for C1: target 120, one year, zero rate, MONTHLY; the
calculator returns monthly investment `120 / 12 = 10`. -/
noncomputable def inpC1 : LumpSumInput :=
  { target_amount := 120, years := 1, annual_rate_accum := 0,
    investment_type := .monthly }

/-- The result record `compute_lump_sum` produces on `inpC1`. -/
noncomputable def resC1 : LumpSumResult :=
  { goal_type := "lump_sum", target_amount := 120, years := 1,
    annual_rate_accum := 0, investment_type := "monthly",
    monthly_investment := some 10 }

theorem C1_monthly_investment_formula_witness :
    compute_lump_sum inpC1 = some resC1 ∧
    resC1.monthly_investment =
      some (inpC1.target_amount / ((pyround (inpC1.years * 12) : ℤ) : ℝ)) := by
  have hn : pyround ((1 : ℝ) * 12) = (12 : ℤ) :=
    pyround_int_of_bounds (by norm_num) (by norm_num)
  have hres : compute_lump_sum inpC1 = some resC1 := by
    rw [compute_lump_sum_of_monthly inpC1 rfl]
    simp only [inpC1]
    rw [eff_monthly_rate_zero, hn]
    unfold annuity_from_fv
    rw [if_pos rfl, pydiv_of_ne _ (by norm_num : ((12 : ℤ) : ℝ) ≠ 0)]
    simp only [Option.some_bind]
    simp only [resC1]
    norm_num
  refine ⟨hres, ?_⟩
  exact (C1_monthly_investment_formula inpC1 resC1 rfl hres).1 eff_monthly_rate_zero

/-! ### Evaluation lemmas for the math library under a positive growth factor -/

theorem fv_lump_sum_of_ne {i : ℝ} (hb : (1 : ℝ) + i ≠ 0) (pv : ℝ) (n : ℤ) :
    fv_lump_sum pv i n = some (pv * (1 + i) ^ n) := by
  unfold fv_lump_sum
  rw [zpowP_of_ne hb]
  rfl

theorem pv_from_fv_of_pos {i : ℝ} (hb : 0 < 1 + i) (fv : ℝ) (n : ℤ) :
    pv_from_fv fv i n = some (fv / (1 + i) ^ n) := by
  unfold pv_from_fv
  rw [zpowP_of_ne (ne_of_gt hb)]
  simp only [Option.bind_eq_bind', Option.some_bind]
  exact pydiv_of_ne _ (zpow_ne_zero _ (ne_of_gt hb))

theorem annuity_from_fv_isSome {i : ℝ} {n : ℤ} (hb : 0 < 1 + i) (hn : 1 ≤ n)
    (fv : ℝ) : (annuity_from_fv fv i n).isSome := by
  unfold annuity_from_fv
  by_cases hi : i = 0
  · rw [if_pos hi, pydiv_of_ne _ (show ((n : ℤ) : ℝ) ≠ 0 by
      exact_mod_cast (by omega : ¬(n : ℤ) = 0))]
    rfl
  · rw [if_neg hi, zpowP_of_ne (ne_of_gt hb)]
    simp only [Option.bind_eq_bind', Option.some_bind]
    rw [pydiv_of_ne]
    · rfl
    · have hne1 : (1 : ℝ) + i ≠ 1 := fun h1 => hi (by linarith)
      have := zpow_ne_one_of_ne hb hne1 hn
      intro h0
      exact this (by linarith)

theorem pv_renta_required_isSome {rate : ℝ} (h : -1 < rate) (R y : ℝ) :
    (pv_renta_required R rate y).isSome := by
  unfold pv_renta_required
  by_cases hi : eff_monthly_rate rate = 0
  · rw [if_pos hi]
    rfl
  · rw [if_neg hi, zpowP_of_ne (ne_of_gt (one_add_eff_pos h))]
    simp only [Option.bind_eq_bind', Option.some_bind]
    rw [pydiv_of_ne _ hi]
    rfl

/-! ### C9: one_time_investment only matters in the COMBINED branch -/

/-- C9: For any two `LumpSumInput`s (or any two `RentaInput`s) that
differ only in `one_time_investment` and whose `investment_type` is
ONE_TIME or MONTHLY, `compute_lump_sum` (respectively `compute_renta`)
returns identical results. -/
theorem C9_one_time_investment_only_combined :
    (∀ (inp : LumpSumInput) (c : ℝ),
      inp.investment_type = .one_time ∨ inp.investment_type = .monthly →
      compute_lump_sum { inp with one_time_investment := c } = compute_lump_sum inp) ∧
    (∀ (inp : RentaInput) (c : ℝ),
      inp.investment_type = .one_time ∨ inp.investment_type = .monthly →
      compute_renta { inp with one_time_investment := c } = compute_renta inp) := by
  constructor
  · rintro inp c (h | h)
    · rw [compute_lump_sum_of_one_time { inp with one_time_investment := c } (by simpa using h),
          compute_lump_sum_of_one_time inp h]
    · rw [compute_lump_sum_of_monthly { inp with one_time_investment := c } (by simpa using h),
          compute_lump_sum_of_monthly inp h]
  · rintro inp c (h | h)
    · rw [compute_renta_of_one_time { inp with one_time_investment := c } (by simpa using h),
          compute_renta_of_one_time inp h]
    · rw [compute_renta_of_monthly { inp with one_time_investment := c } (by simpa using h),
          compute_renta_of_monthly inp h]

theorem C9_one_time_investment_only_combined_witness :
    compute_lump_sum { target_amount := 100, years := 2, annual_rate_accum := 0,
                       investment_type := .one_time, one_time_investment := 5 } =
    compute_lump_sum { target_amount := 100, years := 2, annual_rate_accum := 0,
                       investment_type := .one_time, one_time_investment := 0 } :=
  C9_one_time_investment_only_combined.1
    { target_amount := 100, years := 2, annual_rate_accum := 0,
      investment_type := .one_time, one_time_investment := 0 } 5 (Or.inl rfl)

/-! ### C5: present value from future value inverts future value of a lump sum -/

/-- C5: For all `pv`, all rates `i > -1`, and all integer month counts
`n ≥ 0`, `pv_from_fv (fv_lump_sum pv i n) i n = pv`: the two functions
are an exact inverse pair. -/
theorem C5_pv_from_fv_inverse (pv i : ℝ) (n : ℤ) (hi : -1 < i) (_hn : 0 ≤ n) :
    (fv_lump_sum pv i n).bind (fun fv => pv_from_fv fv i n) = some pv := by
  have hb : (0 : ℝ) < 1 + i := by linarith
  have hbne : (1 : ℝ) + i ≠ 0 := ne_of_gt hb
  have hpow : (1 + i) ^ n ≠ 0 := zpow_ne_zero _ hbne
  rw [fv_lump_sum_of_ne hbne]
  simp only [Option.some_bind]
  rw [pv_from_fv_of_pos hb]
  congr 1
  field_simp

theorem C5_pv_from_fv_inverse_witness :
    (fv_lump_sum 5 1 3).bind (fun fv => pv_from_fv fv 1 3) = some 5 :=
  C5_pv_from_fv_inverse 5 1 3 (by norm_num) (by norm_num)

/-! ### C4: guarded divisions -/

/-- C4 counterexample: the claim says `years > 0` suffices for
`compute_lump_sum` to finish without a division-by-zero error, but
`years = 1/100` (a positive horizon) gives a month count
`n = round(0.12) = 0`, and the MONTHLY branch divides by `n`:
the computation raises `ZeroDivisionError` (modelled by `none`). -/
theorem C4_counterexample :
    (0 : ℝ) < 1 / 100 ∧
    compute_lump_sum { target_amount := 100, years := 1 / 100, annual_rate_accum := 0,
                       investment_type := .monthly } = none := by
  refine ⟨by norm_num, ?_⟩
  rw [compute_lump_sum_of_monthly _ rfl]
  simp only
  have hn : pyround ((1 / 100 : ℝ) * 12) = 0 :=
    pyround_int_of_bounds (m := 0) (by norm_num) (by norm_num)
  rw [eff_monthly_rate_zero, hn]
  unfold annuity_from_fv
  rw [if_pos rfl]
  unfold pydiv
  rw [if_pos (by norm_num : ((0 : ℤ) : ℝ) = 0)]
  rfl

/-- C4 as amended: if the derived month count is at least one
(`round(years*12) ≥ 1`, and `round(years_saving*12) ≥ 1` for renta) and
the annual rates exceed `-1`, then `compute_lump_sum` and
`compute_renta` complete without any division-by-zero error, for every
investment type: all remaining divisions are guarded, the `i = 0` case
taking the linear branch. -/
theorem C4_no_division_by_zero :
    (∀ inp : LumpSumInput, -1 < inp.annual_rate_accum →
      1 ≤ pyround (inp.years * 12) → (compute_lump_sum inp).isSome) ∧
    (∀ inp : RentaInput, -1 < inp.annual_rate_accum → -1 < inp.annual_rate_rent →
      1 ≤ pyround (inp.years_saving * 12) → (compute_renta inp).isSome) := by
  constructor
  · intro inp hrate hn
    have hb : 0 < 1 + eff_monthly_rate inp.annual_rate_accum := one_add_eff_pos hrate
    rcases htype : inp.investment_type with _ | _ | _
    · rw [compute_lump_sum_of_one_time inp htype, pv_from_fv_of_pos hb]
      rfl
    · rw [compute_lump_sum_of_monthly inp htype]
      rcases Option.isSome_iff_exists.1 (annuity_from_fv_isSome hb hn inp.target_amount)
        with ⟨mv, hmv⟩
      rw [hmv]
      rfl
    · rw [compute_lump_sum_of_combined inp htype,
          fv_lump_sum_of_ne (ne_of_gt hb)]
      simp only [Option.some_bind]
      rcases Option.isSome_iff_exists.1 (annuity_from_fv_isSome hb hn
        (if inp.target_amount - inp.one_time_investment *
            (1 + eff_monthly_rate inp.annual_rate_accum) ^ pyround (inp.years * 12) < 0
         then 0
         else inp.target_amount - inp.one_time_investment *
            (1 + eff_monthly_rate inp.annual_rate_accum) ^ pyround (inp.years * 12)))
        with ⟨mv, hmv⟩
      rw [hmv]
      rfl
  · intro inp hrate hrent hn
    have hb : 0 < 1 + eff_monthly_rate inp.annual_rate_accum := one_add_eff_pos hrate
    rcases Option.isSome_iff_exists.1
      (pv_renta_required_isSome hrent inp.monthly_rent inp.years_rent) with ⟨pv, hpv⟩
    rcases htype : inp.investment_type with _ | _ | _
    · rw [compute_renta_of_one_time inp htype, hpv]
      simp only [Option.some_bind]
      rw [pv_from_fv_of_pos hb]
      rfl
    · rw [compute_renta_of_monthly inp htype, hpv]
      simp only [Option.some_bind]
      rcases Option.isSome_iff_exists.1 (annuity_from_fv_isSome hb hn pv) with ⟨mv, hmv⟩
      rw [hmv]
      rfl
    · rw [compute_renta_of_combined inp htype, hpv]
      simp only [Option.some_bind]
      rw [fv_lump_sum_of_ne (ne_of_gt hb)]
      simp only [Option.some_bind]
      rcases Option.isSome_iff_exists.1 (annuity_from_fv_isSome hb hn
        (if pv - inp.one_time_investment *
            (1 + eff_monthly_rate inp.annual_rate_accum) ^ pyround (inp.years_saving * 12) < 0
         then 0
         else pv - inp.one_time_investment *
            (1 + eff_monthly_rate inp.annual_rate_accum) ^ pyround (inp.years_saving * 12)))
        with ⟨mv, hmv⟩
      rw [hmv]
      rfl

theorem C4_no_division_by_zero_witness :
    (compute_lump_sum { target_amount := 100, years := 1, annual_rate_accum := 0,
                        investment_type := .monthly }).isSome ∧
    (compute_renta { monthly_rent := 100, years_rent := 1, annual_rate_rent := 0,
                     years_saving := 1, annual_rate_accum := 0,
                     investment_type := .monthly }).isSome := by
  have h12 : pyround ((1 : ℝ) * 12) = 12 :=
    pyround_int_of_bounds (by norm_num) (by norm_num)
  exact ⟨C4_no_division_by_zero.1 _ (by norm_num)
           (by show (1 : ℤ) ≤ pyround ((1 : ℝ) * 12); rw [h12]; norm_num),
         C4_no_division_by_zero.2 _ (by norm_num) (by norm_num)
           (by show (1 : ℤ) ≤ pyround ((1 : ℝ) * 12); rw [h12]; norm_num)⟩

/-! ### Sign lemmas for the annuity payment -/

theorem zpow_lt_one_of {x : ℝ} (hb : 0 ≤ x) (hx : x < 1) {n : ℤ} (hn : 1 ≤ n) :
    x ^ n < 1 := by
  lift n to ℕ using (by omega : (0 : ℤ) ≤ n)
  rw [zpow_natCast]
  exact pow_lt_one₀ hb hx (by exact_mod_cast (by omega : ¬(n : ℤ) = 0))

theorem one_lt_zpow_of {x : ℝ} (hx : 1 < x) {n : ℤ} (hn : 1 ≤ n) : 1 < x ^ n := by
  lift n to ℕ using (by omega : (0 : ℤ) ≤ n)
  rw [zpow_natCast]
  exact one_lt_pow₀ hx (by exact_mod_cast (by omega : ¬(n : ℤ) = 0))

theorem fv_lump_sum_of_nonneg {n : ℤ} (hn : 0 ≤ n) (pv i : ℝ) :
    fv_lump_sum pv i n = some (pv * (1 + i) ^ n) := by
  unfold fv_lump_sum
  rw [zpowP_of_nonneg _ hn]
  rfl

/-- A monthly payment computed by `annuity_from_fv` from a nonnegative
target is nonnegative, given a nonnegative growth factor and a
nonnegative month count. -/
theorem annuity_from_fv_nonneg {fv i : ℝ} {n : ℤ} {mv : ℝ}
    (hfv : 0 ≤ fv) (hb : 0 ≤ 1 + i) (hn : 0 ≤ n)
    (h : annuity_from_fv fv i n = some mv) : 0 ≤ mv := by
  unfold annuity_from_fv at h
  by_cases hi : i = 0
  · rw [if_pos hi] at h
    obtain ⟨hne, hval⟩ := pydiv_eq_some h
    have hnz : n ≠ 0 := fun h0 => hne (by rw [h0]; norm_num)
    have hnpos : (0 : ℝ) < (n : ℝ) := by exact_mod_cast (by omega : (0 : ℤ) < n)
    rw [← hval]
    exact div_nonneg hfv (le_of_lt hnpos)
  · rw [if_neg hi] at h
    simp only [Option.bind_eq_bind'] at h
    rcases Option.bind_eq_some.1 h with ⟨p, hp, hdiv⟩
    have hpv : (1 + i) ^ n = p := zpowP_eq_some hp
    obtain ⟨hne, hval⟩ := pydiv_eq_some hdiv
    have hn1 : 1 ≤ n := by
      rcases eq_or_lt_of_le hn with h0 | h0
      · exfalso
        apply hne
        rw [← hpv, ← h0]
        norm_num
      · omega
    rcases lt_trichotomy i 0 with hilt | hieq | higt
    · have hplt : p < 1 := by
        rw [← hpv]
        exact zpow_lt_one_of hb (by linarith) hn1
      rw [← hval, mul_div_assoc]
      exact mul_nonneg hfv (le_of_lt (div_pos_iff.2 (Or.inr ⟨hilt, by linarith⟩)))
    · exact absurd hieq hi
    · have hpgt : 1 < p := by
        rw [← hpv]
        exact one_lt_zpow_of (by linarith) hn1
      rw [← hval, mul_div_assoc]
      exact mul_nonneg hfv (le_of_lt (div_pos_iff.2 (Or.inl ⟨higt, by linarith⟩)))

/-- The month count is nonnegative for a positive number of years. -/
theorem pyround_nonneg_of_pos {y : ℝ} (hy : 0 < y) : 0 ≤ pyround (y * 12) := by
  have h0 : (0 : ℤ) ≤ ⌊y * 12⌋ := Int.floor_nonneg.2 (by nlinarith)
  exact le_trans h0 (floor_le_pyround _)

/-! ### C2: the COMBINED branch clamps and never reports a negative payment -/

/-- C2: For every `LumpSumInput` (and every `RentaInput`) with
`investment_type = COMBINED` and a positive horizon, the result's
`target_amount_remaining_for_monthly` equals
`max 0 (target - fv_one_time)` — where the target is `target_amount`
for lump sum and `required_wealth_at_rent_start` for renta — the
returned `monthly_investment` is never negative, and the remaining is
`0` whenever `fv_one_time ≥ target`. -/
theorem C2_combined_clamp_nonneg :
    (∀ (inp : LumpSumInput) (r : LumpSumResult),
      inp.investment_type = .combined → 0 < inp.years →
      compute_lump_sum inp = some r →
      r.target_amount_remaining_for_monthly =
        some (max 0 (inp.target_amount - inp.one_time_investment *
          (1 + eff_monthly_rate inp.annual_rate_accum) ^ pyround (inp.years * 12))) ∧
      (∃ mv, r.monthly_investment = some mv ∧ 0 ≤ mv) ∧
      (inp.target_amount ≤ inp.one_time_investment *
          (1 + eff_monthly_rate inp.annual_rate_accum) ^ pyround (inp.years * 12) →
        r.target_amount_remaining_for_monthly = some 0)) ∧
    (∀ (inp : RentaInput) (r : RentaResult) (pv : ℝ),
      inp.investment_type = .combined → 0 < inp.years_saving →
      pv_renta_required inp.monthly_rent inp.annual_rate_rent inp.years_rent = some pv →
      compute_renta inp = some r →
      r.target_amount_remaining_for_monthly =
        some (max 0 (pv - inp.one_time_investment *
          (1 + eff_monthly_rate inp.annual_rate_accum) ^ pyround (inp.years_saving * 12))) ∧
      (∃ mv, r.monthly_investment = some mv ∧ 0 ≤ mv) ∧
      (pv ≤ inp.one_time_investment *
          (1 + eff_monthly_rate inp.annual_rate_accum) ^ pyround (inp.years_saving * 12) →
        r.target_amount_remaining_for_monthly = some 0)) := by
  constructor
  · intro inp r htype hyears hres
    have hb : 0 ≤ 1 + eff_monthly_rate inp.annual_rate_accum :=
      one_add_eff_nonneg inp.annual_rate_accum
    have hn0 : 0 ≤ pyround (inp.years * 12) := pyround_nonneg_of_pos hyears
    rw [compute_lump_sum_of_combined inp htype, fv_lump_sum_of_nonneg hn0] at hres
    simp only [Option.some_bind] at hres
    rcases Option.bind_eq_some.1 hres with ⟨mv, hmv, hr⟩
    cases Option.some.inj hr
    set fv := inp.one_time_investment *
      (1 + eff_monthly_rate inp.annual_rate_accum) ^ pyround (inp.years * 12) with hfv
    have hmax : (if inp.target_amount - fv < 0 then 0 else inp.target_amount - fv)
        = max 0 (inp.target_amount - fv) := by
      split
      · exact (max_eq_left (by linarith)).symm
      · exact (max_eq_right (by linarith)).symm
    have hrem0 : 0 ≤ (if inp.target_amount - fv < 0 then 0 else inp.target_amount - fv) := by
      split
      · exact le_refl 0
      · linarith
    refine ⟨by simpa using congrArg some hmax, ⟨mv, rfl, ?_⟩, fun hle => ?_⟩
    · exact annuity_from_fv_nonneg hrem0 hb hn0 hmv
    · have : max 0 (inp.target_amount - fv) = 0 := max_eq_left (by linarith)
      simp only [hmax, this]
  · intro inp r pv htype hyears hpv hres
    have hb : 0 ≤ 1 + eff_monthly_rate inp.annual_rate_accum :=
      one_add_eff_nonneg inp.annual_rate_accum
    have hn0 : 0 ≤ pyround (inp.years_saving * 12) := pyround_nonneg_of_pos hyears
    rw [compute_renta_of_combined inp htype, hpv] at hres
    simp only [Option.some_bind] at hres
    rw [fv_lump_sum_of_nonneg hn0] at hres
    simp only [Option.some_bind] at hres
    rcases Option.bind_eq_some.1 hres with ⟨mv, hmv, hr⟩
    cases Option.some.inj hr
    set fv := inp.one_time_investment *
      (1 + eff_monthly_rate inp.annual_rate_accum) ^ pyround (inp.years_saving * 12) with hfv
    have hmax : (if pv - fv < 0 then 0 else pv - fv) = max 0 (pv - fv) := by
      split
      · exact (max_eq_left (by linarith)).symm
      · exact (max_eq_right (by linarith)).symm
    have hrem0 : 0 ≤ (if pv - fv < 0 then 0 else pv - fv) := by
      split
      · exact le_refl 0
      · linarith
    refine ⟨by simpa using congrArg some hmax, ⟨mv, rfl, ?_⟩, fun hle => ?_⟩
    · exact annuity_from_fv_nonneg hrem0 hb hn0 hmv
    · have : max 0 (pv - fv) = 0 := max_eq_left (by linarith)
      simp only [hmax, this]

theorem pyround_one_twelve : pyround ((1 : ℝ) * 12) = 12 :=
  pyround_int_of_bounds (by norm_num) (by norm_num)

/-- `pv_renta_required` at rent 100, rate 0, one year: `100 * 12 = 1200`. -/
theorem eval_pv_renta_zero : pv_renta_required 100 0 1 = some 1200 := by
  simp only [pv_renta_required]
  rw [eff_monthly_rate_zero]
  rw [if_pos rfl, pyround_one_twelve]
  norm_num

/-- Witness input for C2 (lump sum): COMBINED, target 100, one year,
zero rate, one-time deposit 2. -/
noncomputable def inpC2 : LumpSumInput :=
  { target_amount := 100, years := 1, annual_rate_accum := 0,
    investment_type := .combined, one_time_investment := 2 }

/-- The result record `compute_lump_sum` produces on `inpC2`. -/
noncomputable def resC2 : LumpSumResult :=
  { goal_type := "lump_sum", target_amount := 100, years := 1,
    annual_rate_accum := 0, investment_type := "combined",
    monthly_investment := some (98 / 12), one_time_investment := some 2,
    fv_one_time_investment := some 2,
    target_amount_remaining_for_monthly := some 98 }

/-- Witness input for C2 (renta): COMBINED, rent 100 for one year at
zero rate, one saving year at zero rate, one-time deposit 2. -/
noncomputable def inpC2r : RentaInput :=
  { monthly_rent := 100, years_rent := 1, annual_rate_rent := 0,
    years_saving := 1, annual_rate_accum := 0,
    investment_type := .combined, one_time_investment := 2 }

/-- The result record `compute_renta` produces on `inpC2r`. -/
noncomputable def resC2r : RentaResult :=
  { goal_type := "renta", monthly_rent := 100, years_rent := 1,
    annual_rate_rent := 0, years_saving := 1, annual_rate_accum := 0,
    investment_type := "combined", required_wealth_at_rent_start := 1200,
    monthly_investment := some (1198 / 12), one_time_investment := some 2,
    fv_one_time_investment := some 2,
    target_amount_remaining_for_monthly := some 1198 }

theorem eval_compute_lump_sum_C2 : compute_lump_sum inpC2 = some resC2 := by
  rw [compute_lump_sum_of_combined inpC2 rfl]
  simp only [inpC2]
  rw [eff_monthly_rate_zero, pyround_one_twelve,
      fv_lump_sum_of_nonneg (by norm_num)]
  simp only [Option.some_bind]
  norm_num
  unfold annuity_from_fv
  rw [if_pos rfl, pydiv_of_ne _ (by norm_num : ((12 : ℤ) : ℝ) ≠ 0)]
  simp only [Option.some_bind]
  simp only [resC2]
  norm_num

theorem eval_compute_renta_C2 : compute_renta inpC2r = some resC2r := by
  rw [compute_renta_of_combined inpC2r rfl]
  simp only [inpC2r]
  rw [eval_pv_renta_zero]
  simp only [Option.some_bind]
  rw [eff_monthly_rate_zero, pyround_one_twelve,
      fv_lump_sum_of_nonneg (by norm_num)]
  simp only [Option.some_bind]
  norm_num
  unfold annuity_from_fv
  rw [if_pos rfl, pydiv_of_ne _ (by norm_num : ((12 : ℤ) : ℝ) ≠ 0)]
  simp only [Option.some_bind]
  simp only [resC2r]
  norm_num

theorem C2_combined_clamp_nonneg_witness :
    compute_lump_sum inpC2 = some resC2 ∧
    compute_renta inpC2r = some resC2r ∧
    (∃ mv, resC2.monthly_investment = some mv ∧ 0 ≤ mv) ∧
    (∃ mv, resC2r.monthly_investment = some mv ∧ 0 ≤ mv) :=
  ⟨eval_compute_lump_sum_C2, eval_compute_renta_C2,
   ((C2_combined_clamp_nonneg.1 inpC2 resC2 rfl (by show (0:ℝ) < 1; norm_num)
      eval_compute_lump_sum_C2).2).1,
   ((C2_combined_clamp_nonneg.2 inpC2r resC2r 1200 rfl (by show (0:ℝ) < 1; norm_num)
      eval_pv_renta_zero eval_compute_renta_C2).2).1⟩

/-! ### C3: the renta accumulation phase is the lump-sum calculator -/

/-- The branch-specific fields of a lump-sum result: those keys that
only some investment-type branches populate. -/
def LumpSumResult.branchFields (r : LumpSumResult) :
    Option ℝ × Option ℝ × Option ℝ × Option ℝ × Option ℝ :=
  (r.required_wealth_today, r.monthly_investment, r.one_time_investment,
   r.fv_one_time_investment, r.target_amount_remaining_for_monthly)

/-- The branch-specific fields of a renta result. -/
def RentaResult.branchFields (r : RentaResult) :
    Option ℝ × Option ℝ × Option ℝ × Option ℝ × Option ℝ :=
  (r.required_wealth_today, r.monthly_investment, r.one_time_investment,
   r.fv_one_time_investment, r.target_amount_remaining_for_monthly)

/-- C3: For every `RentaInput`, the branch-specific fields produced by
`compute_renta` are exactly the branch-specific fields produced by
`compute_lump_sum` on the `LumpSumInput` whose target is the required
wealth at rent start (`pv_renta_required`), with `years = years_saving`,
the same `annual_rate_accum`, the same `investment_type` and the same
`one_time_investment` (stated whenever the drawdown present value is
defined; when it is not, `compute_renta` raises as well). -/
theorem C3_renta_refines_lump_sum (inp : RentaInput) (pv : ℝ)
    (hpv : pv_renta_required inp.monthly_rent inp.annual_rate_rent inp.years_rent
      = some pv) :
    (compute_renta inp).map RentaResult.branchFields =
    (compute_lump_sum
      { target_amount := pv, years := inp.years_saving,
        annual_rate_accum := inp.annual_rate_accum,
        investment_type := inp.investment_type,
        one_time_investment := inp.one_time_investment }).map
      LumpSumResult.branchFields := by
  rcases htype : inp.investment_type with _ | _ | _
  · rw [compute_renta_of_one_time inp htype, hpv,
        compute_lump_sum_of_one_time _ rfl]
    simp only [Option.some_bind]
    cases hpf : pv_from_fv pv (eff_monthly_rate inp.annual_rate_accum)
        (pyround (inp.years_saving * 12)) <;>
      simp [hpf, RentaResult.branchFields, LumpSumResult.branchFields]
  · rw [compute_renta_of_monthly inp htype, hpv,
        compute_lump_sum_of_monthly _ rfl]
    simp only [Option.some_bind]
    cases ha : annuity_from_fv pv (eff_monthly_rate inp.annual_rate_accum)
        (pyround (inp.years_saving * 12)) <;>
      simp [ha, RentaResult.branchFields, LumpSumResult.branchFields]
  · rw [compute_renta_of_combined inp htype, hpv,
        compute_lump_sum_of_combined _ rfl]
    simp only [Option.some_bind]
    cases hfv : fv_lump_sum inp.one_time_investment
        (eff_monthly_rate inp.annual_rate_accum) (pyround (inp.years_saving * 12)) with
    | none => simp [hfv]
    | some fv =>
      simp only [hfv, Option.some_bind]
      cases ha : annuity_from_fv (if pv - fv < 0 then 0 else pv - fv)
          (eff_monthly_rate inp.annual_rate_accum) (pyround (inp.years_saving * 12)) <;>
        simp [ha, RentaResult.branchFields, LumpSumResult.branchFields]

theorem C3_renta_refines_lump_sum_witness :
    (compute_renta { monthly_rent := 100, years_rent := 1, annual_rate_rent := 0,
                     years_saving := 1, annual_rate_accum := 0,
                     investment_type := .monthly }).map RentaResult.branchFields =
    (compute_lump_sum { target_amount := 1200, years := 1, annual_rate_accum := 0,
                        investment_type := .monthly }).map LumpSumResult.branchFields :=
  C3_renta_refines_lump_sum
    { monthly_rent := 100, years_rent := 1, annual_rate_rent := 0,
      years_saving := 1, annual_rate_accum := 0, investment_type := .monthly }
    1200 eval_pv_renta_zero

/-! ### C10: the unclamped COMBINED plan exactly reaches the target -/

/-- C10: For every `LumpSumInput` with `investment_type = COMBINED` such
that `i = eff_monthly_rate(annual_rate_accum) ≠ 0`, `n = round(years*12) ≥ 1`
and `target_amount - fv_lump_sum(one_time_investment, i, n) ≥ 0` (no
clamping), the returned plan exactly reaches the goal:
`fv_lump_sum(one_time_investment, i, n) + fv_annuity(monthly_investment, i, n)
= target_amount`, where `monthly_investment` is the value
`compute_lump_sum` returns. -/
theorem C10_combined_plan_exact (inp : LumpSumInput) (r : LumpSumResult) (mv : ℝ)
    (htype : inp.investment_type = .combined)
    (hi : eff_monthly_rate inp.annual_rate_accum ≠ 0)
    (hn : 1 ≤ pyround (inp.years * 12))
    (hrem : 0 ≤ inp.target_amount - inp.one_time_investment *
        (1 + eff_monthly_rate inp.annual_rate_accum) ^ pyround (inp.years * 12))
    (hres : compute_lump_sum inp = some r)
    (hmv : r.monthly_investment = some mv) :
    (fv_lump_sum inp.one_time_investment (eff_monthly_rate inp.annual_rate_accum)
        (pyround (inp.years * 12))).bind
      (fun fv1 => (fv_annuity mv (eff_monthly_rate inp.annual_rate_accum)
        (pyround (inp.years * 12))).map (fun fva => fv1 + fva))
      = some inp.target_amount := by
  set i := eff_monthly_rate inp.annual_rate_accum with hidef
  set n := pyround (inp.years * 12) with hndef
  have hn0 : 0 ≤ n := by omega
  rw [compute_lump_sum_of_combined inp htype, fv_lump_sum_of_nonneg hn0] at hres
  simp only [Option.some_bind] at hres
  set fv := inp.one_time_investment * (1 + i) ^ n with hfvdef
  rw [if_neg (not_lt.2 hrem)] at hres
  rcases Option.bind_eq_some.1 hres with ⟨mv', hmv', hr⟩
  cases Option.some.inj hr
  have hmveq : mv' = mv := Option.some.inj (by simpa using hmv)
  subst hmveq
  unfold annuity_from_fv at hmv'
  rw [if_neg hi] at hmv'
  simp only [Option.bind_eq_bind'] at hmv'
  rcases Option.bind_eq_some.1 hmv' with ⟨p, hp, hdiv⟩
  have hpv : (1 + i) ^ n = p := zpowP_eq_some hp
  obtain ⟨hpne, hval⟩ := pydiv_eq_some hdiv
  rw [fv_lump_sum_of_nonneg hn0]
  simp only [Option.some_bind]
  unfold fv_annuity
  rw [if_neg hi, hp]
  simp only [Option.bind_eq_bind', Option.some_bind]
  rw [pydiv_of_ne _ hi]
  simp only [Option.map_some']
  congr 1
  rw [← hval]
  rw [← hpv] at hpne ⊢
  field_simp

/-- Witness input for C10: annual rate `4095` gives `i = 4096^(1/12) - 1 = 1`. -/
noncomputable def inpC10 : LumpSumInput :=
  { target_amount := 4095, years := 1, annual_rate_accum := 4095,
    investment_type := .combined, one_time_investment := 0 }

/-- The result record `compute_lump_sum` produces on `inpC10`. -/
noncomputable def resC10 : LumpSumResult :=
  { goal_type := "lump_sum", target_amount := 4095, years := 1,
    annual_rate_accum := 4095, investment_type := "combined",
    monthly_investment := some 1, one_time_investment := some 0,
    fv_one_time_investment := some 0,
    target_amount_remaining_for_monthly := some 4095 }

/-- `eff_monthly_rate 4095 = 4096^(1/12) - 1 = 2 - 1 = 1`. -/
theorem eval_eff_4095 : eff_monthly_rate 4095 = 1 := by
  unfold eff_monthly_rate
  rw [show (1 : ℝ) + 4095 = 2 ^ (12 : ℕ) by norm_num,
      show (1 : ℝ) / 12 = (((12 : ℕ) : ℝ))⁻¹ by norm_num,
      Real.pow_rpow_inv_natCast (by norm_num) (by norm_num)]
  norm_num

theorem eval_two_zpow_twelve : ((1 : ℝ) + 1) ^ (12 : ℤ) = 4096 := by
  rw [show ((12 : ℤ)) = ((12 : ℕ) : ℤ) from rfl, zpow_natCast]
  norm_num

theorem eval_compute_lump_sum_C10 : compute_lump_sum inpC10 = some resC10 := by
  rw [compute_lump_sum_of_combined inpC10 rfl]
  simp only [inpC10]
  rw [eval_eff_4095, pyround_one_twelve, fv_lump_sum_of_nonneg (by norm_num)]
  simp only [Option.some_bind, zero_mul]
  rw [if_neg (by norm_num : ¬((4095 : ℝ) - 0 < 0))]
  unfold annuity_from_fv
  rw [if_neg (by norm_num : (1 : ℝ) ≠ 0),
      zpowP_of_ne (by norm_num : (1 : ℝ) + 1 ≠ 0)]
  simp only [Option.bind_eq_bind', Option.some_bind]
  rw [pydiv_of_ne _ (by rw [eval_two_zpow_twelve]; norm_num)]
  simp only [Option.some_bind]
  simp only [resC10]
  rw [eval_two_zpow_twelve]
  norm_num

theorem C10_combined_plan_exact_witness :
    compute_lump_sum inpC10 = some resC10 ∧
    (fv_lump_sum inpC10.one_time_investment (eff_monthly_rate inpC10.annual_rate_accum)
        (pyround (inpC10.years * 12))).bind
      (fun fv1 => (fv_annuity 1 (eff_monthly_rate inpC10.annual_rate_accum)
        (pyround (inpC10.years * 12))).map (fun fva => fv1 + fva))
      = some inpC10.target_amount := by
  refine ⟨eval_compute_lump_sum_C10, ?_⟩
  refine C10_combined_plan_exact inpC10 resC10 1 rfl ?_ ?_ ?_ eval_compute_lump_sum_C10 rfl
  · show eff_monthly_rate 4095 ≠ 0
    rw [eval_eff_4095]
    norm_num
  · show (1 : ℤ) ≤ pyround ((1 : ℝ) * 12)
    rw [pyround_one_twelve]
    norm_num
  · show (0 : ℝ) ≤ 4095 - 0 * (1 + eff_monthly_rate 4095) ^ pyround ((1 : ℝ) * 12)
    rw [zero_mul]
    norm_num

/-! ### C7: missing conditionally-required fields give a 400 naming them -/

/-- C7: A `POST /calc` whose `goal_type` selects lump_sum (respectively
renta) and whose body omits any of the conditionally required fields
receives HTTP 400 with a detail message listing exactly the names of
the missing fields. -/
theorem C7_missing_fields_400 :
    (∀ req : RawCalcRequest, req.goal_type = "lump_sum" →
      req.investment_type ∈ ["one_time", "monthly", "combined"] →
      missingFields req lumpSumRequired ≠ [] →
      postCalc req = .err 400
        ("Missing fields for lump_sum: " ++ pyListRepr (missingFields req lumpSumRequired)) ∧
      (∀ k, k ∈ missingFields req lumpSumRequired ↔
        k ∈ lumpSumRequired ∧ req.field k = none)) ∧
    (∀ req : RawCalcRequest, req.goal_type = "renta" →
      req.investment_type ∈ ["one_time", "monthly", "combined"] →
      missingFields req rentaRequired ≠ [] →
      postCalc req = .err 400
        ("Missing fields for renta: " ++ pyListRepr (missingFields req rentaRequired)) ∧
      (∀ k, k ∈ missingFields req rentaRequired ↔
        k ∈ rentaRequired ∧ req.field k = none)) := by
  have hmem : ∀ k (req : RawCalcRequest) (ks : List String),
      k ∈ missingFields req ks ↔ k ∈ ks ∧ req.field k = none := by
    intro k req ks
    simp [missingFields, List.mem_filter, Option.isNone_iff_eq_none]
  have hsome : ∀ req : RawCalcRequest,
      req.investment_type ∈ ["one_time", "monthly", "combined"] →
      ∃ it, investmentTypeOfString req.investment_type = some it := by
    intro req hinv
    rcases (by simpa using hinv :
        req.investment_type = "one_time" ∨ req.investment_type = "monthly" ∨
        req.investment_type = "combined") with h | h | h
    · exact ⟨.one_time, by simp [investmentTypeOfString, h]⟩
    · exact ⟨.monthly, by simp [investmentTypeOfString, h]⟩
    · exact ⟨.combined, by simp [investmentTypeOfString, h]⟩
  constructor
  · intro req hgoal hinv hmiss
    obtain ⟨it, hit⟩ := hsome req hinv
    refine ⟨?_, fun k => hmem k req lumpSumRequired⟩
    unfold postCalc
    rw [if_pos ⟨by rw [hgoal]; simp, hinv⟩]
    unfold calcHandler
    rw [hit]
    simp only [hgoal]
    rw [if_pos trivial, if_pos hmiss]
  · intro req hgoal hinv hmiss
    obtain ⟨it, hit⟩ := hsome req hinv
    refine ⟨?_, fun k => hmem k req rentaRequired⟩
    unfold postCalc
    rw [if_pos ⟨by rw [hgoal]; simp, hinv⟩]
    unfold calcHandler
    rw [hit]
    simp only [hgoal]
    rw [if_pos trivial, if_pos hmiss]
    rw [if_neg (by simp : ¬("renta" : String) = "lump_sum")]

/-- Witness request for C7: lump_sum body that omits `years` only. -/
noncomputable def reqC7 : RawCalcRequest :=
  { goal_type := "lump_sum", investment_type := "monthly",
    target_amount := some 100, years := none, annual_rate_accum := some (7 / 100) }

theorem C7_missing_fields_400_witness :
    missingFields reqC7 lumpSumRequired = ["years"] ∧
    postCalc reqC7 = .err 400
      ("Missing fields for lump_sum: " ++ pyListRepr (missingFields reqC7 lumpSumRequired)) ∧
    ("years" ∈ missingFields reqC7 lumpSumRequired ↔
      "years" ∈ lumpSumRequired ∧ reqC7.field "years" = none) := by
  have hmiss : missingFields reqC7 lumpSumRequired = ["years"] := by
    simp [missingFields, lumpSumRequired, RawCalcRequest.field, reqC7]
  have happ := C7_missing_fields_400.1 reqC7 rfl (by simp [reqC7])
    (by rw [hmiss]; simp)
  exact ⟨hmiss, happ.1, happ.2 "years"⟩

/-! ### C8: an unknown goal_type is rejected by request validation -/

/-- C8 counterexample: a `POST /calc` with `goal_type = "house"` is
rejected by pydantic's `Literal` validation with HTTP 422, not with the
HTTP 400 the claim asserts; the handler's own `Unknown goal_type` 400
branch is unreachable. -/
theorem C8_counterexample :
    postCalc { goal_type := "house", investment_type := "monthly" } =
      CalcResponse.err 422 "request validation error" ∧
    (postCalc { goal_type := "house", investment_type := "monthly" }).status ≠ 400 := by
  have hpost : postCalc { goal_type := "house", investment_type := "monthly" } =
      CalcResponse.err 422 "request validation error" := by
    unfold postCalc
    rw [if_neg]
    rintro ⟨hmemb, -⟩
    simp at hmemb
  exact ⟨hpost, by rw [hpost]; simp [CalcResponse.status]⟩

/-- C8 as amended: a `POST /calc` whose `goal_type` is not one of
"lump_sum" or "renta" receives HTTP status 422 (FastAPI's
request-validation response for a value outside the `Literal` type),
not 400. -/
theorem C8_unknown_goal_type_422 (req : RawCalcRequest)
    (h1 : req.goal_type ≠ "lump_sum") (h2 : req.goal_type ≠ "renta") :
    (postCalc req).status = 422 := by
  unfold postCalc
  rw [if_neg]
  · rfl
  · rintro ⟨hmemb, -⟩
    rcases (by simpa using hmemb :
        req.goal_type = "lump_sum" ∨ req.goal_type = "renta") with h | h
    · exact h1 h
    · exact h2 h

theorem C8_unknown_goal_type_422_witness :
    (postCalc { goal_type := "foo", investment_type := "one_time" }).status = 422 :=
  C8_unknown_goal_type_422 { goal_type := "foo", investment_type := "one_time" }
    (by simp) (by simp)

/-! ### C6: monotonicity of the drawdown present value -/

theorem pyround_nonneg_of_nonneg {y : ℝ} (hy : 0 ≤ y) : 0 ≤ pyround (y * 12) := by
  have h0 : (0 : ℤ) ≤ ⌊y * 12⌋ := Int.floor_nonneg.2 (by nlinarith)
  exact le_trans h0 (floor_le_pyround _)

/-- Telescoping identity behind the drawdown annuity: the discounted
sum times `a - 1` collapses to `1 - a⁻ⁿ`. -/
theorem annuity_sum_mul {a : ℝ} (ha : a ≠ 0) (N : ℕ) :
    (∑ k in Finset.range N, (a⁻¹) ^ (k + 1)) * (a - 1) = 1 - (a⁻¹) ^ N := by
  induction N with
  | zero => simp
  | succ N ih =>
    rw [Finset.sum_range_succ, add_mul, ih]
    have hstep : (a⁻¹ : ℝ) ^ (N + 1) * (a - 1) = a⁻¹ ^ N - a⁻¹ ^ (N + 1) := by
      rw [pow_succ]
      field_simp
    rw [hstep]
    ring

theorem zpow_neg_toNat (a : ℝ) {n : ℤ} (hn : 0 ≤ n) : a ^ (-n) = (a⁻¹) ^ n.toNat := by
  conv_lhs => rw [← Int.toNat_of_nonneg hn]
  rw [zpow_neg, zpow_natCast, ← inv_pow]

/-- `pv_renta_required` written as the discounted sum of the monthly
withdrawals: `R * Σ_{k=1}^{n} (1+i2)^(-k)`. -/
theorem pv_renta_required_eq_sum {rate y : ℝ} (hrate : -1 < rate) (hy : 0 ≤ y)
    (R : ℝ) :
    pv_renta_required R rate y =
      some (R * ∑ k in Finset.range (pyround (y * 12)).toNat,
        ((1 + eff_monthly_rate rate)⁻¹) ^ (k + 1)) := by
  have hn0 : 0 ≤ pyround (y * 12) := pyround_nonneg_of_nonneg hy
  have ha : 0 < 1 + eff_monthly_rate rate := one_add_eff_pos hrate
  have hN : ((pyround (y * 12)).toNat : ℤ) = pyround (y * 12) :=
    Int.toNat_of_nonneg hn0
  unfold pv_renta_required
  by_cases hi : eff_monthly_rate rate = 0
  · rw [if_pos hi]
    congr 1
    have h1 : (1 + eff_monthly_rate rate)⁻¹ = 1 := by rw [hi]; norm_num
    rw [h1]
    simp only [one_pow, Finset.sum_const, Finset.card_range, nsmul_eq_mul, mul_one]
    congr 1
    exact_mod_cast hN.symm
  · rw [if_neg hi, zpowP_of_ne (ne_of_gt ha)]
    simp only [Option.bind_eq_bind', Option.some_bind]
    rw [pydiv_of_ne _ hi]
    congr 1
    rw [zpow_neg_toNat _ hn0]
    have hsum := annuity_sum_mul (ne_of_gt ha) (pyround (y * 12)).toNat
    rw [show (1 + eff_monthly_rate rate) - 1 = eff_monthly_rate rate by ring] at hsum
    rw [← hsum, mul_div_assoc, mul_div_cancel_right₀ _ hi]

/-- Every term of the discounted sum is nonnegative. -/
theorem renta_sum_nonneg {a : ℝ} (ha : 0 ≤ a) (N : ℕ) :
    0 ≤ ∑ k in Finset.range N, (a⁻¹) ^ (k + 1) :=
  Finset.sum_nonneg fun k _ => pow_nonneg (inv_nonneg.2 ha) (k + 1)

/-- C6: Holding the other two arguments fixed (and on the natural
domain: nonnegative rent, drawdown rates above `-1`, nonnegative
horizons), `pv_renta_required` is monotonically increasing in
`monthly_rent`, monotonically increasing in `years_rent`, and
monotonically decreasing in `annual_rate_rent`. -/
theorem C6_pv_renta_required_monotone :
    (∀ R R' rate y p q, -1 < rate → 0 ≤ y → R ≤ R' →
      pv_renta_required R rate y = some p →
      pv_renta_required R' rate y = some q → p ≤ q) ∧
    (∀ R rate y y' p q, 0 ≤ R → -1 < rate → 0 ≤ y → y ≤ y' →
      pv_renta_required R rate y = some p →
      pv_renta_required R rate y' = some q → p ≤ q) ∧
    (∀ R rate rate' y p q, 0 ≤ R → -1 < rate → rate ≤ rate' → 0 ≤ y →
      pv_renta_required R rate y = some p →
      pv_renta_required R rate' y = some q → q ≤ p) := by
  refine ⟨?_, ?_, ?_⟩
  · intro R R' rate y p q hrate hy hRR hp hq
    rw [pv_renta_required_eq_sum hrate hy] at hp hq
    cases Option.some.inj hp
    cases Option.some.inj hq
    exact mul_le_mul_of_nonneg_right hRR
      (renta_sum_nonneg (le_of_lt (one_add_eff_pos hrate)) _)
  · intro R rate y y' p q hR hrate hy hyy hp hq
    rw [pv_renta_required_eq_sum hrate hy] at hp
    rw [pv_renta_required_eq_sum hrate (le_trans hy hyy)] at hq
    cases Option.some.inj hp
    cases Option.some.inj hq
    have hmono : (pyround (y * 12)).toNat ≤ (pyround (y' * 12)).toNat :=
      Int.toNat_le_toNat (pyround_mono (by nlinarith))
    refine mul_le_mul_of_nonneg_left ?_ hR
    refine Finset.sum_le_sum_of_subset_of_nonneg
      (Finset.range_subset.2 hmono) fun k _ _ =>
        pow_nonneg (inv_nonneg.2 (le_of_lt (one_add_eff_pos hrate))) (k + 1)
  · intro R rate rate' y p q hR hrate hrr hy hp hq
    have hrate' : -1 < rate' := lt_of_lt_of_le hrate hrr
    rw [pv_renta_required_eq_sum hrate hy] at hp
    rw [pv_renta_required_eq_sum hrate' hy] at hq
    cases Option.some.inj hp
    cases Option.some.inj hq
    refine mul_le_mul_of_nonneg_left ?_ hR
    refine Finset.sum_le_sum fun k _ => ?_
    have heff : eff_monthly_rate rate ≤ eff_monthly_rate rate' := by
      unfold eff_monthly_rate
      have := Real.rpow_le_rpow (by linarith : (0 : ℝ) ≤ 1 + rate)
        (by linarith : 1 + rate ≤ 1 + rate') (by norm_num : (0 : ℝ) ≤ 1 / 12)
      linarith
    have hinv : (1 + eff_monthly_rate rate')⁻¹ ≤ (1 + eff_monthly_rate rate)⁻¹ :=
      inv_anti₀ (one_add_eff_pos hrate) (by linarith)
    exact pow_le_pow_left₀
      (inv_nonneg.2 (le_of_lt (one_add_eff_pos hrate'))) hinv (k + 1)

theorem pyround_two_twelve : pyround ((2 : ℝ) * 12) = 24 :=
  pyround_int_of_bounds (by norm_num) (by norm_num)

/-- `pv_renta_required` at rent 200, rate 0, one year. -/
theorem eval_pv_renta_zero_R200 : pv_renta_required 200 0 1 = some 2400 := by
  simp only [pv_renta_required]
  rw [eff_monthly_rate_zero]
  rw [if_pos rfl, pyround_one_twelve]
  norm_num

/-- `pv_renta_required` at rent 100, rate 0, two years. -/
theorem eval_pv_renta_zero_y2 : pv_renta_required 100 0 2 = some 2400 := by
  simp only [pv_renta_required]
  rw [eff_monthly_rate_zero]
  rw [if_pos rfl, pyround_two_twelve]
  norm_num

/-- `pv_renta_required` at rent 100, rate 4095 (so `i2 = 1`), one year. -/
theorem eval_pv_renta_4095 :
    pv_renta_required 100 4095 1 =
      some (100 * (1 - ((1 : ℝ) + 1) ^ (-(12 : ℤ))) / 1) := by
  simp only [pv_renta_required]
  rw [eval_eff_4095]
  rw [if_neg one_ne_zero, pyround_one_twelve,
      zpowP_of_ne (by norm_num : (1 : ℝ) + 1 ≠ 0)]
  simp only [Option.bind_eq_bind', Option.some_bind]
  rw [pydiv_of_ne _ one_ne_zero]

theorem C6_pv_renta_required_monotone_witness :
    ((1200 : ℝ) ≤ 2400) ∧ ((1200 : ℝ) ≤ 2400) ∧
    (100 * (1 - ((1 : ℝ) + 1) ^ (-(12 : ℤ))) / 1 ≤ 1200) :=
  ⟨C6_pv_renta_required_monotone.1 100 200 0 1 1200 2400 (by norm_num) (by norm_num)
     (by norm_num) eval_pv_renta_zero eval_pv_renta_zero_R200,
   C6_pv_renta_required_monotone.2.1 100 0 1 2 1200 2400 (by norm_num) (by norm_num)
     (by norm_num) (by norm_num) eval_pv_renta_zero eval_pv_renta_zero_y2,
   C6_pv_renta_required_monotone.2.2 100 0 4095 1 1200
     (100 * (1 - ((1 : ℝ) + 1) ^ (-(12 : ℤ))) / 1) (by norm_num) (by norm_num)
     (by norm_num) (by norm_num) eval_pv_renta_zero eval_pv_renta_4095⟩

end Kalkulacka
